import Mathlib

/-!
# Verification of `racing_game.py`

A shallow embedding of the lane-based racing game and proofs about its
per-frame update cycle.

Modelling choices:
* Python's arbitrary-precision `int` is `Int`; Python floats (positions,
  the lane width, the score) are modelled as exact rationals `ℚ`.
  The float literals `0.5` and `0.6` denote the exact values `1/2` and `3/5`.
* Python's floor division `//` is `Int.fdiv`; Python's `int(...)` conversion
  truncates toward zero (`pyTrunc`).
* `pygame.Rect` is a record of the four assigned coordinates.  The source
  always assigns `rect.x`/`rect.y` from the car's centre and size, so the
  rectangle coordinates are kept as the exact assigned rationals.
* `random.randrange` / `random.randint` are modelled as oracle inputs
  (`Rng`); theorems assume only the documented output range of each call.
* `pygame.key.get_pressed()` is modelled as the `Keys` record sampled once
  per frame, and the event queue as a list of `GameEvent` values processed
  one at a time by `handleEvent` (the body of the `handle_events` loop).
* Rendering (`draw`), colors and fonts carry no game state and are omitted.
-/

/-- Python's `int(q)` on a float/fraction: truncation toward zero. -/
def pyTrunc (q : ℚ) : Int := if 0 ≤ q then q.floor else q.ceil

/-- Python's `range(a, b, s)` for a positive step `s`
    (the only form the source uses); other steps give the empty list. -/
def pyRange (a b s : Int) : List Int :=
  if 0 < s then
    (List.range ((b - a + s - 1).fdiv s).toNat).map (fun i => a + (i : Int) * s)
  else []

/-- The axis-aligned rectangle `pygame.Rect(x, y, w, h)` as assigned by the
    source (coordinates kept exact rather than truncated by the library). -/
structure Rect where
  x : ℚ
  y : ℚ
  w : Int
  h : Int
deriving DecidableEq

/-- `pygame.Rect.colliderect`: strict overlap on both axes. -/
def Rect.colliderect (a b : Rect) : Bool :=
  decide (a.x < b.x + (b.w : ℚ)) && decide (a.x + (a.w : ℚ) > b.x) &&
  decide (a.y < b.y + (b.h : ℚ)) && decide (a.y + (a.h : ℚ) > b.y)

/-- The `Car` entity: centre position, size, and the cached bounding box. -/
structure Car where
  x : ℚ
  y : ℚ
  width : Int
  height : Int
  rect : Rect
deriving DecidableEq

/-- `Car.__init__`: stores centre and size and derives the bounding box
    `pygame.Rect(x - width // 2, y - height // 2, width, height)`. -/
def mkCar (x y : ℚ) (width height : Int) : Car :=
  { x := x, y := y, width := width, height := height,
    rect := { x := x - (width.fdiv 2 : Int), y := y - (height.fdiv 2 : Int),
              w := width, h := height } }

/-- `Car.update(dx, dy)`: shift the centre and recompute the bounding box. -/
def Car.update (c : Car) (dx dy : Int) : Car :=
  { c with
    x := c.x + (dx : ℚ), y := c.y + (dy : ℚ),
    rect := { c.rect with
      x := c.x + (dx : ℚ) - (c.width.fdiv 2 : Int),
      y := c.y + (dy : ℚ) - (c.height.fdiv 2 : Int) } }

/-- The frozen `GameConfig` dataclass. -/
structure GameConfig where
  width : Int
  height : Int
  lane_count : Int
  border_x : Int
  lane_marker_length : Int
  lane_marker_gap : Int
  fps : Int
deriving DecidableEq

/-- The dataclass defaults: `GameConfig()`. -/
def defaultConfig : GameConfig :=
  { width := 400, height := 600, lane_count := 3, border_x := 60,
    lane_marker_length := 48, lane_marker_gap := 80, fps := 60 }

/-- The mutable state of a `RacingGame` instance (display/clock/font
    handles omitted; the constants `car_speed` etc. are instance
    attributes set in `__init__` and are carried in the state). -/
structure RacingGame where
  config : GameConfig
  track_left : Int
  track_right : Int
  lane_width : ℚ
  car_speed : Int
  road_scroll_speed : Int
  obstacle_speed : Int
  spawn_cooldown_lo : Int
  spawn_cooldown_hi : Int
  player_car : Car
  obstacles : List Car
  lane_markers : List (Int × Int)
  score : ℚ
  spawn_timer : Int
  running : Bool
  game_over : Bool
deriving DecidableEq

/-- `_lane_center(lane) = track_left + lane_width * (lane + 0.5)`. -/
def RacingGame.laneCenter (g : RacingGame) (lane : Int) : ℚ :=
  (g.track_left : ℚ) + g.lane_width * ((lane : ℚ) + 1/2)

/-- `_init_lane_markers`: for each internal lane boundary, dashes from
    `-marker_length` up to (strictly below) `height + marker_length` with
    step `marker_length + gap`. -/
def initLaneMarkers (cfg : GameConfig) (track_left : Int) (lane_width : ℚ) :
    List (Int × Int) :=
  (pyRange 1 cfg.lane_count 1).flatMap (fun lane =>
    let x := pyTrunc ((track_left : ℚ) + (lane : ℚ) * lane_width)
    (pyRange (-cfg.lane_marker_length) (cfg.height + cfg.lane_marker_length)
        (cfg.lane_marker_length + cfg.lane_marker_gap)).map (fun y => (x, y)))

/-- `RacingGame.__init__` (with `d0` the oracle value of the initial
    `random.randint(60, 120)` spawn delay). -/
def RacingGame.init (cfg : GameConfig) (d0 : Int) : RacingGame :=
  let track_left := cfg.border_x
  let track_right := cfg.width - cfg.border_x
  let lane_width : ℚ := ((track_right - track_left : Int) : ℚ) / (cfg.lane_count : ℚ)
  let car_width := pyTrunc (lane_width * (3/5))
  let car_x : ℚ := (track_left : ℚ) + lane_width * ((1 : ℚ) + 1/2)
  let car_y : ℚ := ((cfg.height - 80 : Int) : ℚ)
  { config := cfg
    track_left := track_left
    track_right := track_right
    lane_width := lane_width
    car_speed := 5
    road_scroll_speed := 3
    obstacle_speed := 3
    spawn_cooldown_lo := 60
    spawn_cooldown_hi := 120
    player_car := mkCar car_x car_y car_width 40
    obstacles := []
    lane_markers := initLaneMarkers cfg track_left lane_width
    score := 0
    spawn_timer := d0
    running := true
    game_over := false }

/-- The hold state of the two directional keys, sampled once per frame. -/
structure Keys where
  left : Bool
  right : Bool
deriving DecidableEq

/-- `_update_car`: move by `±car_speed` when exactly one directional key is
    held, but only when the window `new_x ± width // 2` stays inside
    `[track_left, track_right]`; otherwise the position is unchanged. -/
def RacingGame.updateCar (g : RacingGame) (keys : Keys) : RacingGame :=
  let dx : Int :=
    if keys.left && !keys.right then -g.car_speed
    else if keys.right && !keys.left then g.car_speed
    else 0
  if dx ≠ 0 then
    let new_x := g.player_car.x + (dx : ℚ)
    if new_x - (g.player_car.width.fdiv 2 : Int) ≥ (g.track_left : ℚ) ∧
        new_x + (g.player_car.width.fdiv 2 : Int) ≤ (g.track_right : ℚ) then
      { g with player_car := g.player_car.update dx 0 }
    else g
  else g

/-- `_update_lane_markers`: scroll each dash down; wrap to `-marker_length`
    when it passes the bottom of the screen. -/
def RacingGame.updateLaneMarkers (g : RacingGame) : RacingGame :=
  { g with lane_markers := g.lane_markers.map (fun m =>
      (m.1, if m.2 + g.road_scroll_speed > g.config.height
            then -g.config.lane_marker_length
            else m.2 + g.road_scroll_speed)) }

/-- `_check_collision(obstacle)`. -/
def checkCollision (player obstacle : Car) : Bool :=
  player.rect.colliderect obstacle.rect

/-- One obstacle as left by the `_update_obstacles` loop, instrumented with
    whether it was appended to `obstacles_to_remove` (`marked`) and whether
    `_check_collision` was invoked on it (`tested`). -/
structure Processed where
  car : Car
  marked : Bool
  tested : Bool
deriving DecidableEq

/-- The `for obstacle in self.obstacles` loop of `_update_obstacles`:
    move each obstacle; mark it (skipping the collision test) when its
    centre has passed the bottom; otherwise test it against the player and
    return at the first hit, leaving the remaining obstacles untouched.
    Returns the per-obstacle records and the collision flag. -/
def updateObstaclesLoop (player : Car) (speed H : Int) :
    List Car → List Processed × Bool
  | [] => ([], false)
  | o :: rest =>
    if (o.update 0 speed).y > (H : ℚ) then
      (⟨o.update 0 speed, true, false⟩ :: (updateObstaclesLoop player speed H rest).1,
       (updateObstaclesLoop player speed H rest).2)
    else if checkCollision player (o.update 0 speed) then
      (⟨o.update 0 speed, false, true⟩ :: rest.map (fun c => ⟨c, false, false⟩), true)
    else
      (⟨o.update 0 speed, false, true⟩ :: (updateObstaclesLoop player speed H rest).1,
       (updateObstaclesLoop player speed H rest).2)

/-- `_update_obstacles`: on a collision set `game_over` and return without
    removing anything; otherwise delete the marked obstacles. -/
def RacingGame.updateObstacles (g : RacingGame) : RacingGame :=
  if (updateObstaclesLoop g.player_car g.obstacle_speed g.config.height g.obstacles).2 then
    { g with
      obstacles := (updateObstaclesLoop g.player_car g.obstacle_speed g.config.height
        g.obstacles).1.map (fun e => e.car),
      game_over := true }
  else
    { g with
      obstacles := ((updateObstaclesLoop g.player_car g.obstacle_speed g.config.height
        g.obstacles).1.filter (fun e => !e.marked)).map (fun e => e.car) }

/-- The oracle values of the two random draws a frame may consume:
    `random.randrange(lane_count)` and `random.randint(60, 120)`. -/
structure Rng where
  lane : Int
  delay : Int
deriving DecidableEq

/-- `_maybe_spawn_obstacle`: decrement the countdown; at `≤ 0`, append one
    obstacle (height 50, one lane-marker-width wide, centred in the drawn
    lane, centre at `y = -50`) and redraw the countdown. -/
def RacingGame.maybeSpawnObstacle (g : RacingGame) (rng : Rng) : RacingGame :=
  if g.spawn_timer - 1 ≤ 0 then
    { g with
      obstacles := g.obstacles ++
        [mkCar (g.laneCenter rng.lane) ((-50 : Int) : ℚ) (pyTrunc (g.lane_width * (3/5))) 50],
      spawn_timer := rng.delay }
  else { g with spawn_timer := g.spawn_timer - 1 }

/-- `_update_score`: `score += 1.0 / fps`. -/
def RacingGame.updateScore (g : RacingGame) : RacingGame :=
  { g with score := g.score + 1 / (g.config.fps : ℚ) }

/-- `update`: the whole per-frame state update.  The `game_over` guard is
    evaluated once at frame entry; an early return inside
    `_update_obstacles` does not stop the following calls. -/
def RacingGame.update (g : RacingGame) (keys : Keys) (rng : Rng) : RacingGame :=
  if g.game_over then g
  else ((((g.updateCar keys).updateLaneMarkers).updateObstacles).maybeSpawnObstacle
          rng).updateScore

/-- Whether this frame's `_update_obstacles` call detects a collision:
    the collision flag of the obstacle loop, run on the state as it stands
    when `_update_obstacles` is reached (after the car and marker updates). -/
def RacingGame.frameCollision (g : RacingGame) (keys : Keys) : Bool :=
  (updateObstaclesLoop ((g.updateCar keys).updateLaneMarkers).player_car
    ((g.updateCar keys).updateLaneMarkers).obstacle_speed
    ((g.updateCar keys).updateLaneMarkers).config.height
    ((g.updateCar keys).updateLaneMarkers).obstacles).2

/-- The keys the event handler distinguishes. -/
inductive GameKey where
  | returnKey
  | escapeKey
  | otherKey
deriving DecidableEq

/-- One pygame event. -/
inductive GameEvent where
  | quit
  | keydown (k : GameKey)
  | other
deriving DecidableEq

/-- `_reset_game` (with `d` the oracle value of the fresh
    `random.randint(60, 120)`): clear obstacles, zero the score, redraw the
    spawn delay, and recentre the player in the middle lane. -/
def RacingGame.resetGame (g : RacingGame) (d : Int) : RacingGame :=
  let car_x := g.laneCenter 1
  let car_y : ℚ := ((g.config.height - 80 : Int) : ℚ)
  { g with
    game_over := false
    obstacles := []
    score := 0
    spawn_timer := d
    player_car := { g.player_car with
      x := car_x, y := car_y,
      rect := { g.player_car.rect with
        x := car_x - (g.player_car.width.fdiv 2 : Int),
        y := car_y - (g.player_car.height.fdiv 2 : Int) } } }

/-- The body of the `handle_events` loop for one event: quit and escape
    stop the loop; the return key restarts only in the game-over state. -/
def RacingGame.handleEvent (g : RacingGame) (e : GameEvent) (d : Int) : RacingGame :=
  match e with
  | .quit => { g with running := false }
  | .keydown .returnKey => if g.game_over then g.resetGame d else g
  | .keydown .escapeKey => { g with running := false }
  | .keydown .otherKey => g
  | .other => g

/-! ## Helper lemmas -/

/-- `_update_car` either leaves the state unchanged or applies the full
    `±car_speed` move, and a move is applied only when the window
    `new_x ± width // 2` lies inside the track bounds. -/
theorem updateCar_eq_cases (g : RacingGame) (k : Keys) :
    g.updateCar k = g ∨
    ∃ dx : Int, (dx = g.car_speed ∨ dx = -g.car_speed) ∧
      (g.player_car.x + (dx : ℚ) - (g.player_car.width.fdiv 2 : Int) ≥ (g.track_left : ℚ) ∧
       g.player_car.x + (dx : ℚ) + (g.player_car.width.fdiv 2 : Int) ≤ (g.track_right : ℚ)) ∧
      g.updateCar k = { g with player_car := g.player_car.update dx 0 } := by
  simp only [RacingGame.updateCar]
  cases hb1 : (k.left && !k.right)
  · cases hb2 : (k.right && !k.left)
    · rw [if_neg Bool.false_ne_true, if_neg Bool.false_ne_true, if_neg (by simp)]
      exact Or.inl rfl
    · rw [if_neg Bool.false_ne_true, if_pos rfl]
      split
      · split
        · next hcond => exact Or.inr ⟨g.car_speed, Or.inl rfl, hcond, rfl⟩
        · exact Or.inl rfl
      · exact Or.inl rfl
  · rw [if_pos rfl]
    split
    · split
      · next hcond => exact Or.inr ⟨-g.car_speed, Or.inr rfl, hcond, rfl⟩
      · exact Or.inl rfl
    · exact Or.inl rfl

theorem updateCar_score (g : RacingGame) (k : Keys) :
    (g.updateCar k).score = g.score := by
  rcases updateCar_eq_cases g k with h | ⟨dx, _, _, h⟩ <;> rw [h]

theorem updateCar_config (g : RacingGame) (k : Keys) :
    (g.updateCar k).config = g.config := by
  rcases updateCar_eq_cases g k with h | ⟨dx, _, _, h⟩ <;> rw [h]

theorem updateCar_obstacles (g : RacingGame) (k : Keys) :
    (g.updateCar k).obstacles = g.obstacles := by
  rcases updateCar_eq_cases g k with h | ⟨dx, _, _, h⟩ <;> rw [h]

theorem updateCar_spawn_timer (g : RacingGame) (k : Keys) :
    (g.updateCar k).spawn_timer = g.spawn_timer := by
  rcases updateCar_eq_cases g k with h | ⟨dx, _, _, h⟩ <;> rw [h]

theorem updateCar_game_over (g : RacingGame) (k : Keys) :
    (g.updateCar k).game_over = g.game_over := by
  rcases updateCar_eq_cases g k with h | ⟨dx, _, _, h⟩ <;> rw [h]

theorem updateCar_track_left (g : RacingGame) (k : Keys) :
    (g.updateCar k).track_left = g.track_left := by
  rcases updateCar_eq_cases g k with h | ⟨dx, _, _, h⟩ <;> rw [h]

theorem updateCar_track_right (g : RacingGame) (k : Keys) :
    (g.updateCar k).track_right = g.track_right := by
  rcases updateCar_eq_cases g k with h | ⟨dx, _, _, h⟩ <;> rw [h]

theorem updateCar_lane_width (g : RacingGame) (k : Keys) :
    (g.updateCar k).lane_width = g.lane_width := by
  rcases updateCar_eq_cases g k with h | ⟨dx, _, _, h⟩ <;> rw [h]

theorem updateObstacles_of_collision (g : RacingGame)
    (h : (updateObstaclesLoop g.player_car g.obstacle_speed g.config.height g.obstacles).2
      = true) :
    g.updateObstacles = { g with
      obstacles := (updateObstaclesLoop g.player_car g.obstacle_speed g.config.height
        g.obstacles).1.map (fun e => e.car),
      game_over := true } := by
  unfold RacingGame.updateObstacles
  rw [if_pos h]

theorem updateObstacles_of_no_collision (g : RacingGame)
    (h : (updateObstaclesLoop g.player_car g.obstacle_speed g.config.height g.obstacles).2
      = false) :
    g.updateObstacles = { g with
      obstacles := ((updateObstaclesLoop g.player_car g.obstacle_speed g.config.height
        g.obstacles).1.filter (fun e => !e.marked)).map (fun e => e.car) } := by
  unfold RacingGame.updateObstacles
  rw [if_neg (by simp [h])]

theorem updateObstacles_score (g : RacingGame) :
    (g.updateObstacles).score = g.score := by
  unfold RacingGame.updateObstacles
  split <;> rfl

theorem updateObstacles_config (g : RacingGame) :
    (g.updateObstacles).config = g.config := by
  unfold RacingGame.updateObstacles
  split <;> rfl

theorem updateObstacles_spawn_timer (g : RacingGame) :
    (g.updateObstacles).spawn_timer = g.spawn_timer := by
  unfold RacingGame.updateObstacles
  split <;> rfl

theorem updateObstacles_track_left (g : RacingGame) :
    (g.updateObstacles).track_left = g.track_left := by
  unfold RacingGame.updateObstacles
  split <;> rfl

theorem updateObstacles_lane_width (g : RacingGame) :
    (g.updateObstacles).lane_width = g.lane_width := by
  unfold RacingGame.updateObstacles
  split <;> rfl

theorem maybeSpawn_of_expired (g : RacingGame) (rng : Rng)
    (h : g.spawn_timer - 1 ≤ 0) :
    g.maybeSpawnObstacle rng = { g with
      obstacles := g.obstacles ++
        [mkCar (g.laneCenter rng.lane) ((-50 : Int) : ℚ) (pyTrunc (g.lane_width * (3/5))) 50],
      spawn_timer := rng.delay } := by
  unfold RacingGame.maybeSpawnObstacle
  rw [if_pos h]

theorem maybeSpawn_of_counting (g : RacingGame) (rng : Rng)
    (h : 0 < g.spawn_timer - 1) :
    g.maybeSpawnObstacle rng = { g with spawn_timer := g.spawn_timer - 1 } := by
  unfold RacingGame.maybeSpawnObstacle
  rw [if_neg (by omega)]

theorem maybeSpawn_score (g : RacingGame) (rng : Rng) :
    (g.maybeSpawnObstacle rng).score = g.score := by
  unfold RacingGame.maybeSpawnObstacle
  split <;> rfl

theorem maybeSpawn_game_over (g : RacingGame) (rng : Rng) :
    (g.maybeSpawnObstacle rng).game_over = g.game_over := by
  unfold RacingGame.maybeSpawnObstacle
  split <;> rfl

theorem maybeSpawn_config (g : RacingGame) (rng : Rng) :
    (g.maybeSpawnObstacle rng).config = g.config := by
  unfold RacingGame.maybeSpawnObstacle
  split <;> rfl

theorem update_of_game_over (g : RacingGame) (keys : Keys) (rng : Rng)
    (h : g.game_over = true) : g.update keys rng = g := by
  unfold RacingGame.update
  rw [if_pos h]

theorem update_of_not_game_over (g : RacingGame) (keys : Keys) (rng : Rng)
    (h : g.game_over = false) :
    g.update keys rng =
      ((((g.updateCar keys).updateLaneMarkers).updateObstacles).maybeSpawnObstacle
        rng).updateScore := by
  unfold RacingGame.update
  rw [if_neg (by simp [h])]

theorem updateLaneMarkers_score (g : RacingGame) :
    (g.updateLaneMarkers).score = g.score := rfl

theorem updateLaneMarkers_config (g : RacingGame) :
    (g.updateLaneMarkers).config = g.config := rfl

theorem updateLaneMarkers_spawn_timer (g : RacingGame) :
    (g.updateLaneMarkers).spawn_timer = g.spawn_timer := rfl

theorem updateLaneMarkers_track_left (g : RacingGame) :
    (g.updateLaneMarkers).track_left = g.track_left := rfl

theorem updateLaneMarkers_lane_width (g : RacingGame) :
    (g.updateLaneMarkers).lane_width = g.lane_width := rfl

theorem updateScore_score (g : RacingGame) :
    (g.updateScore).score = g.score + 1 / (g.config.fps : ℚ) := rfl

theorem updateScore_game_over (g : RacingGame) :
    (g.updateScore).game_over = g.game_over := rfl

theorem updateScore_spawn_timer (g : RacingGame) :
    (g.updateScore).spawn_timer = g.spawn_timer := rfl

theorem updateScore_obstacles (g : RacingGame) :
    (g.updateScore).obstacles = g.obstacles := rfl

theorem loop_length (p : Car) (s H : Int) (l : List Car) :
    ((updateObstaclesLoop p s H l).1).length = l.length := by
  induction l with
  | nil => rfl
  | cons o rest ih =>
    simp only [updateObstaclesLoop]
    split
    · simpa using ih
    · split
      · simp
      · simpa using ih

theorem loop_marked_tested (p : Car) (s H : Int) (l : List Car) :
    ∀ e ∈ (updateObstaclesLoop p s H l).1,
      (e.marked = true → e.tested = false) ∧ (e.tested = true → e.marked = false) := by
  induction l with
  | nil => intro e he; simp [updateObstaclesLoop] at he
  | cons o rest ih =>
    intro e he
    simp only [updateObstaclesLoop] at he
    split at he
    · cases he with
      | head => exact ⟨fun _ => rfl, fun h => by cases h⟩
      | tail _ h => exact ih e h
    · split at he
      · cases he with
        | head => exact ⟨fun h => absurd h (by simp), fun _ => rfl⟩
        | tail _ h =>
          obtain ⟨c, -, rfl⟩ := List.mem_map.mp h
          exact ⟨fun h => absurd h (by simp), fun h => absurd h (by simp)⟩
      · cases he with
        | head => exact ⟨fun h => absurd h (by simp), fun _ => rfl⟩
        | tail _ h => exact ih e h

theorem loop_collision_split (p : Car) (s H : Int) (l : List Car)
    (hc : (updateObstaclesLoop p s H l).2 = true) :
    ∃ pre e post, (updateObstaclesLoop p s H l).1 = pre ++ e :: post ∧
      e.tested = true ∧ checkCollision p e.car = true ∧
      (∀ e' ∈ pre, e'.tested = true → checkCollision p e'.car = false) ∧
      (∀ e' ∈ post, e'.tested = false) := by
  induction l with
  | nil => simp [updateObstaclesLoop] at hc
  | cons o rest ih =>
    simp only [updateObstaclesLoop] at hc ⊢
    by_cases hy : (o.update 0 s).y > (H : ℚ)
    · rw [if_pos hy] at hc ⊢
      obtain ⟨pre, e, post, h1, h2, h3, h4, h5⟩ := ih hc
      refine ⟨⟨o.update 0 s, true, false⟩ :: pre, e, post, ?_, h2, h3, ?_, h5⟩
      · simp only [List.cons_append]
        exact congrArg _ h1
      · intro e' he'
        cases he' with
        | head => intro ht; cases ht
        | tail _ h => exact h4 e' h
    · rw [if_neg hy] at hc ⊢
      by_cases hcol : checkCollision p (o.update 0 s) = true
      · rw [if_pos hcol] at hc ⊢
        refine ⟨[], ⟨o.update 0 s, false, true⟩, rest.map (fun c => ⟨c, false, false⟩),
          rfl, rfl, hcol, by simp, ?_⟩
        intro e' he'
        obtain ⟨c, -, rfl⟩ := List.mem_map.mp he'
        rfl
      · rw [if_neg hcol] at hc ⊢
        obtain ⟨pre, e, post, h1, h2, h3, h4, h5⟩ := ih hc
        refine ⟨⟨o.update 0 s, false, true⟩ :: pre, e, post, ?_, h2, h3, ?_, h5⟩
        · simp only [List.cons_append]
          exact congrArg _ h1
        · intro e' he'
          cases he' with
          | head => intro _; exact Bool.eq_false_iff.mpr hcol
          | tail _ h => exact h4 e' h

theorem loop_no_collision_all (p : Car) (s H : Int) (l : List Car)
    (hc : (updateObstaclesLoop p s H l).2 = false) :
    ∀ e ∈ (updateObstaclesLoop p s H l).1,
      e.tested = true → checkCollision p e.car = false := by
  induction l with
  | nil => intro e he; simp [updateObstaclesLoop] at he
  | cons o rest ih =>
    simp only [updateObstaclesLoop] at hc ⊢
    by_cases hy : (o.update 0 s).y > (H : ℚ)
    · rw [if_pos hy] at hc ⊢
      intro e he
      cases he with
      | head => intro ht; cases ht
      | tail _ h => exact ih hc e h
    · rw [if_neg hy] at hc ⊢
      by_cases hcol : checkCollision p (o.update 0 s) = true
      · rw [if_pos hcol] at hc; cases hc
      · rw [if_neg hcol] at hc ⊢
        intro e he
        cases he with
        | head => intro _; exact Bool.eq_false_iff.mpr hcol
        | tail _ h => exact ih hc e h

theorem loop_no_collision_filter (p : Car) (s H : Int) (l : List Car)
    (hc : (updateObstaclesLoop p s H l).2 = false) :
    ((updateObstaclesLoop p s H l).1.filter (fun e => !e.marked)).map (fun e => e.car)
      = (l.map (fun o => o.update 0 s)).filter (fun o => !decide (o.y > (H : ℚ))) := by
  induction l with
  | nil => rfl
  | cons o rest ih =>
    simp only [updateObstaclesLoop] at hc ⊢
    by_cases hy : (o.update 0 s).y > (H : ℚ)
    · rw [if_pos hy] at hc ⊢
      simp only [List.map_cons, List.filter_cons]
      simp only [show (!(Processed.mk (o.update 0 s) true false).marked) = false from rfl,
        show decide ((o.update 0 s).y > (H : ℚ)) = true from decide_eq_true hy,
        Bool.not_true, Bool.false_eq_true, if_false]
      exact ih hc
    · rw [if_neg hy] at hc ⊢
      by_cases hcol : checkCollision p (o.update 0 s) = true
      · rw [if_pos hcol] at hc; cases hc
      · rw [if_neg hcol] at hc ⊢
        simp only [List.map_cons, List.filter_cons]
        simp only [show (!(Processed.mk (o.update 0 s) false true).marked) = true from rfl,
          show decide ((o.update 0 s).y > (H : ℚ)) = false from decide_eq_false hy,
          Bool.not_false, if_true]
        simp only [List.map_cons]
        exact congrArg _ (ih hc)

/- Batteries marks the rational operations `@[irreducible]`, which blocks
`decide` on concrete game states; restore the default transparency so that
concrete rational arithmetic evaluates. -/
attribute [local semireducible] Rat.add Rat.mul Rat.sub Rat.inv

/-! ## Predicates and concrete inputs used by the claims -/

/-- The player's bounding box lies within `[track_left, track_right]`. -/
def playerBoxInBounds (g : RacingGame) : Prop :=
  (g.track_left : ℚ) ≤ g.player_car.rect.x ∧
  g.player_car.rect.x + (g.player_car.width : ℚ) ≤ (g.track_right : ℚ)

instance (g : RacingGame) : Decidable (playerBoxInBounds g) := by
  unfold playerBoxInBounds
  infer_instance

/-- The bounding box is exactly the axis-aligned rectangle derived from the
    centre and the stored size. -/
def rectDerived (c : Car) : Prop :=
  c.rect.x = c.x - (c.width.fdiv 2 : Int) ∧
  c.rect.y = c.y - (c.height.fdiv 2 : Int) ∧
  c.rect.w = c.width ∧ c.rect.h = c.height

/-- No directional key held. -/
def keysNone : Keys := { left := false, right := false }

/-- Only the right directional key held. -/
def keysRight : Keys := { left := false, right := true }

/-- A fixed random oracle: next lane draw 0, next delay draw 90. -/
def rngA : Rng := { lane := 0, delay := 90 }

/-! ## C9 -/

/-- C9: for every vehicle, after construction (`Car.__init__`), after every
    per-frame translation (`Car.update`), and after a game reset
    (`_reset_game`, which keeps the stored sizes), the bounding box is
    exactly the axis-aligned rectangle derived from centre and size:
    `rect.x = x - width // 2`, `rect.y = y - height // 2`, with the stored
    width and height. -/
theorem C9_rect_derived :
    (∀ (x y : ℚ) (w h : Int), rectDerived (mkCar x y w h)) ∧
    (∀ (c : Car) (dx dy : Int), c.rect.w = c.width → c.rect.h = c.height →
      rectDerived (c.update dx dy)) ∧
    (∀ (g : RacingGame) (d : Int), g.player_car.rect.w = g.player_car.width →
      g.player_car.rect.h = g.player_car.height →
      rectDerived ((g.resetGame d).player_car)) :=
  ⟨fun _ _ _ _ => ⟨rfl, rfl, rfl, rfl⟩,
   fun _ _ _ hw hh => ⟨rfl, rfl, hw, hh⟩,
   fun _ _ hw hh => ⟨rfl, rfl, hw, hh⟩⟩

/-- C9 witness: the translation branch on a constructed car and the reset
    branch on the freshly initialised game. -/
theorem C9_witness :
    rectDerived ((mkCar 200 520 56 40).update 5 0) ∧
    rectDerived (((RacingGame.init defaultConfig 60).resetGame 80).player_car) :=
  ⟨C9_rect_derived.2.1 (mkCar 200 520 56 40) 5 0 rfl rfl,
   C9_rect_derived.2.2 (RacingGame.init defaultConfig 60) 80 rfl rfl⟩

/-! ## C5 -/

/-- C5: the restart key has an effect only in the game-over state; a
    restart from game-over runs `_reset_game`, after which the obstacle
    list is empty, the score is `0.0`, `game_over` is false, the spawn
    timer is the fresh random delay (in `[60, 120]`), and the player is
    horizontally centred in the middle lane (`_lane_center(1)`). -/
theorem C5_restart (g : RacingGame) (d : Int) (hd : 60 ≤ d ∧ d ≤ 120) :
    (g.game_over = false → g.handleEvent (.keydown .returnKey) d = g) ∧
    (g.game_over = true →
      g.handleEvent (.keydown .returnKey) d = g.resetGame d ∧
      (g.resetGame d).obstacles = [] ∧
      (g.resetGame d).score = 0 ∧
      (g.resetGame d).game_over = false ∧
      (g.resetGame d).spawn_timer = d ∧
      60 ≤ (g.resetGame d).spawn_timer ∧ (g.resetGame d).spawn_timer ≤ 120 ∧
      (g.resetGame d).player_car.x = g.laneCenter 1 ∧
      (g.resetGame d).player_car.y = ((g.config.height - 80 : Int) : ℚ) ∧
      (g.resetGame d).player_car.rect.x
        = g.laneCenter 1 - (g.player_car.width.fdiv 2 : Int)) := by
  constructor
  · intro h
    simp [RacingGame.handleEvent, h]
  · intro h
    exact ⟨by simp [RacingGame.handleEvent, h], rfl, rfl, rfl, rfl, hd.1, hd.2,
      rfl, rfl, rfl⟩

/-- A game-over state reached from startup (flag set by a collision). -/
def gOver : RacingGame := { RacingGame.init defaultConfig 70 with game_over := true }

/-- C5 witness: restarting `gOver` with fresh delay 65. -/
theorem C5_witness :
    gOver.handleEvent (.keydown .returnKey) 65 = gOver.resetGame 65 ∧
    (gOver.resetGame 65).obstacles = [] ∧
    (gOver.resetGame 65).score = 0 ∧
    (gOver.resetGame 65).game_over = false ∧
    (gOver.resetGame 65).spawn_timer = 65 ∧
    60 ≤ (gOver.resetGame 65).spawn_timer ∧ (gOver.resetGame 65).spawn_timer ≤ 120 ∧
    (gOver.resetGame 65).player_car.x = gOver.laneCenter 1 ∧
    (gOver.resetGame 65).player_car.y = ((gOver.config.height - 80 : Int) : ℚ) ∧
    (gOver.resetGame 65).player_car.rect.x
      = gOver.laneCenter 1 - (gOver.player_car.width.fdiv 2 : Int) :=
  (C5_restart gOver 65 (by decide)).2 rfl

/-! ## C8 -/

/-- C8: every frame processed in the running state adds exactly `1/fps` to
    the score (a strict increase for a positive frame rate), and a frame
    processed in the game-over state leaves the whole state, hence the
    score, unchanged. -/
theorem C8_score (g : RacingGame) (keys : Keys) (rng : Rng) :
    (g.game_over = true → g.update keys rng = g) ∧
    (g.game_over = false →
      (g.update keys rng).score = g.score + 1 / (g.config.fps : ℚ) ∧
      (1 ≤ g.config.fps → g.score < (g.update keys rng).score)) := by
  refine ⟨update_of_game_over g keys rng, fun h => ?_⟩
  have hs : (g.update keys rng).score = g.score + 1 / (g.config.fps : ℚ) := by
    rw [update_of_not_game_over g keys rng h, updateScore_score, maybeSpawn_score,
      updateObstacles_score, updateLaneMarkers_score, updateCar_score,
      maybeSpawn_config, updateObstacles_config, updateLaneMarkers_config,
      updateCar_config]
  refine ⟨hs, fun hf => ?_⟩
  have h1 : (1 : ℚ) ≤ (g.config.fps : ℚ) := by exact_mod_cast hf
  have h2 : (0 : ℚ) < 1 / (g.config.fps : ℚ) := by positivity
  rw [hs]
  linarith

/-- C8 witness: one running frame from startup. -/
theorem C8_witness :
    ((RacingGame.init defaultConfig 60).update keysNone rngA).score
      = (RacingGame.init defaultConfig 60).score
        + 1 / ((RacingGame.init defaultConfig 60).config.fps : ℚ) ∧
    (RacingGame.init defaultConfig 60).score
      < ((RacingGame.init defaultConfig 60).update keysNone rngA).score :=
  ⟨((C8_score (RacingGame.init defaultConfig 60) keysNone rngA).2 rfl).1,
   ((C8_score (RacingGame.init defaultConfig 60) keysNone rngA).2 rfl).2 (by decide)⟩

/-! ## C2 -/

/-- C2 (amended): `_update_car` applies a move in full or not at all (no
    clamping), and the acceptance test compares the window
    `new_x ± width // 2` with the track bounds.  For an even player width
    — as produced by the default configuration — this window equals the
    bounding box, so the bounding box being inside
    `[track_left, track_right]` is an invariant of the car update.  (For
    odd widths the box's right edge is `width - width // 2` past the
    centre, one more than the tested `width // 2`, and the invariant can
    fail; see the counterexample.) -/
theorem C2_bounds (g : RacingGame) (keys : Keys)
    (hw : g.player_car.width % 2 = 0)
    (hin : playerBoxInBounds g) :
    playerBoxInBounds (g.updateCar keys) ∧
    ((g.updateCar keys).player_car.x = g.player_car.x ∨
     (g.updateCar keys).player_car.x = g.player_car.x + (g.car_speed : ℚ) ∨
     (g.updateCar keys).player_car.x = g.player_car.x - (g.car_speed : ℚ)) := by
  obtain ⟨m, hm⟩ : ∃ m : Int, g.player_car.width = 2 * m :=
    ⟨g.player_car.width / 2, by omega⟩
  rcases updateCar_eq_cases g keys with h | ⟨dx, hdx, ⟨hc1, hc2⟩, h⟩
  · rw [h]
    exact ⟨hin, Or.inl rfl⟩
  · have hfd : g.player_car.width.fdiv 2 = m := by
      rw [hm]
      exact Int.mul_fdiv_cancel_left m (by norm_num)
    rw [hfd] at hc1 hc2
    constructor
    · rw [h]
      unfold playerBoxInBounds
      dsimp [Car.update]
      rw [hfd]
      constructor
      · exact hc1
      · have hw2 : (g.player_car.width : ℚ) = 2 * (m : ℚ) := by
          rw [hm]
          push_cast
          ring
        rw [hw2]
        linarith [hc2]
    · rw [h]
      dsimp [Car.update]
      rcases hdx with rfl | rfl
      · right; left; rfl
      · right; right
        push_cast
        ring

/-- C2 witness: a right move from the default startup state. -/
theorem C2_witness :
    playerBoxInBounds ((RacingGame.init defaultConfig 60).updateCar keysRight) ∧
    (((RacingGame.init defaultConfig 60).updateCar keysRight).player_car.x
        = (RacingGame.init defaultConfig 60).player_car.x ∨
     ((RacingGame.init defaultConfig 60).updateCar keysRight).player_car.x
        = (RacingGame.init defaultConfig 60).player_car.x
          + ((RacingGame.init defaultConfig 60).car_speed : ℚ) ∨
     ((RacingGame.init defaultConfig 60).updateCar keysRight).player_car.x
        = (RacingGame.init defaultConfig 60).player_car.x
          - ((RacingGame.init defaultConfig 60).car_speed : ℚ)) :=
  C2_bounds (RacingGame.init defaultConfig 60) keysRight (by decide) (by decide)

/-- `GameConfig(width=206)`: track `[60, 146]`, lane width `86/3`, player
    width `int(86/3 * 0.6) = 17` (odd). -/
def cfg206 : GameConfig := { defaultConfig with width := 206 }

/-- The state after `n` frames of holding the right key from startup with
    `cfg206` (the spawn delay oracle is 60, so no obstacle exists and no
    collision can occur during the first 7 frames). -/
def rightFrames (n : Nat) : RacingGame :=
  (fun g => g.update keysRight rngA)^[n] (RacingGame.init cfg206 60)

/-- C2 counterexample: with `GameConfig(width=206)`, after six frames of
    holding right the player (centre 133, box `[125, 142]`) is inside the
    track `[60, 146]`; the seventh frame's move to centre 138 is accepted
    (`138 + 17 // 2 = 146 ≤ 146`) yet the resulting box `[130, 147]` has
    left the track, so the move was neither rejected nor the box kept in
    bounds. -/
theorem C2_counterexample :
    rightFrames 7 = (rightFrames 6).update keysRight rngA ∧
    playerBoxInBounds (rightFrames 6) ∧
    (rightFrames 7).player_car.x ≠ (rightFrames 6).player_car.x ∧
    ¬ playerBoxInBounds (rightFrames 7) := by
  refine ⟨Function.iterate_succ_apply' _ 6 _, ?_, ?_, ?_⟩ <;> decide

/-! ## C1 -/

/-- C1 (amended): when the obstacle update detects a collision in a running
    frame, `game_over` is set immediately and the remaining obstacles are
    not processed (see C4/C10), but because `update` tests `game_over` only
    at frame entry, that same frame still runs `_maybe_spawn_obstacle`
    (decrementing or redrawing the spawn timer, possibly spawning) and
    `_update_score` (adding `1/fps`); from the next frame on, a game-over
    frame leaves the state completely unchanged until a reset. -/
theorem C1_game_over_frame (g : RacingGame) (keys : Keys) (rng : Rng)
    (hg : g.game_over = false) (hc : g.frameCollision keys = true) :
    (g.update keys rng).game_over = true ∧
    (g.update keys rng).score = g.score + 1 / (g.config.fps : ℚ) ∧
    ((g.update keys rng).spawn_timer = g.spawn_timer - 1 ∨
      (g.update keys rng).spawn_timer = rng.delay) ∧
    (∀ g2 : RacingGame, g2.game_over = true → g2.update keys rng = g2) := by
  have hpipe := update_of_not_game_over g keys rng hg
  refine ⟨?_, ?_, ?_, fun g2 h2 => update_of_game_over g2 keys rng h2⟩
  · rw [hpipe, updateScore_game_over, maybeSpawn_game_over,
      updateObstacles_of_collision _ hc]
  · rw [hpipe, updateScore_score, maybeSpawn_score, updateObstacles_score,
      updateLaneMarkers_score, updateCar_score, maybeSpawn_config,
      updateObstacles_config, updateLaneMarkers_config, updateCar_config]
  · rw [hpipe, updateScore_spawn_timer]
    by_cases h :
        (((g.updateCar keys).updateLaneMarkers).updateObstacles).spawn_timer - 1 ≤ 0
    · right
      rw [maybeSpawn_of_expired _ _ h]
    · left
      rw [maybeSpawn_of_counting _ _ (by omega), updateObstacles_spawn_timer,
        updateLaneMarkers_spawn_timer, updateCar_spawn_timer]

/-- A running state one frame before a collision: the default startup state
    with an obstacle centred in the player's lane at `y = 480` (it moves to
    483 and its box `[458, 508]` overlaps the player's box `[500, 540]`),
    and with the spawn timer about to expire. -/
def gC1 : RacingGame := { RacingGame.init defaultConfig 90 with
  obstacles := [mkCar 200 480 56 50], spawn_timer := 1 }

/-- C1 witness: the amended theorem at `gC1`. -/
theorem C1_witness :
    (gC1.update keysNone rngA).game_over = true ∧
    (gC1.update keysNone rngA).score = gC1.score + 1 / (gC1.config.fps : ℚ) ∧
    ((gC1.update keysNone rngA).spawn_timer = gC1.spawn_timer - 1 ∨
      (gC1.update keysNone rngA).spawn_timer = rngA.delay) ∧
    (∀ g2 : RacingGame, g2.game_over = true → g2.update keysNone rngA = g2) :=
  C1_game_over_frame gC1 keysNone rngA rfl (by decide)

/-- C1 counterexample: in the very frame whose obstacle update detects the
    collision (`game_over` becomes true), the score still increases by
    `1/60` and the expired spawn timer still spawns an obstacle — the
    claimed same-frame halt of score and spawn updates does not hold. -/
theorem C1_counterexample :
    gC1.game_over = false ∧
    (gC1.update keysNone rngA).game_over = true ∧
    (gC1.update keysNone rngA).score = gC1.score + 1 / 60 ∧
    (gC1.update keysNone rngA).obstacles.length = gC1.obstacles.length + 1 ∧
    (gC1.update keysNone rngA).spawn_timer = 90 := by
  refine ⟨rfl, ?_, ?_, ?_, ?_⟩ <;> decide

/-! ## C3 -/

/-- C3 (amended): in a frame whose obstacle update detects no collision,
    an obstacle is removed if and only if its moved centre `y` exceeds the
    screen height — not its top edge; the surviving list is exactly the
    moved list filtered by `y ≤ height`. -/
theorem C3_removal (g : RacingGame)
    (hc : (updateObstaclesLoop g.player_car g.obstacle_speed g.config.height
      g.obstacles).2 = false) :
    (g.updateObstacles).obstacles
      = (g.obstacles.map (fun o => o.update 0 g.obstacle_speed)).filter
          (fun o => !decide (o.y > (g.config.height : ℚ))) := by
  rw [updateObstacles_of_no_collision g hc]
  exact loop_no_collision_filter _ _ _ _ hc

/-- A running state with one obstacle whose centre is about to pass the
    bottom of the screen (`598 + 3 = 601 > 600`) while its top edge
    (`601 - 25 = 576`) is still on screen. -/
def gC3 : RacingGame := { RacingGame.init defaultConfig 90 with
  obstacles := [mkCar 106 598 56 50] }

/-- A collision-free state with one obstacle to be removed and one to be
    kept. -/
def gC3w : RacingGame := { RacingGame.init defaultConfig 90 with
  obstacles := [mkCar 106 598 56 50, mkCar 150 100 56 50] }

/-- C3 witness: the amended removal rule at `gC3w`. -/
theorem C3_witness :
    (gC3w.updateObstacles).obstacles
      = (gC3w.obstacles.map (fun o => o.update 0 gC3w.obstacle_speed)).filter
          (fun o => !decide (o.y > (gC3w.config.height : ℚ))) :=
  C3_removal gC3w (by decide)

/-- C3 counterexample: the obstacle moved to centre `y = 601` is removed
    (the updated list is empty) although its top edge `601 - 50 // 2 = 576`
    has not passed the bottom of the screen, refuting removal-iff-top-edge-
    passed. -/
theorem C3_counterexample :
    gC3.obstacles = [mkCar 106 598 56 50] ∧
    ((mkCar 106 598 56 50).update 0 gC3.obstacle_speed).y
        - (((mkCar 106 598 56 50).update 0 gC3.obstacle_speed).height.fdiv 2 : Int)
      ≤ (gC3.config.height : ℚ) ∧
    (gC3.updateObstacles).obstacles = [] := by
  refine ⟨rfl, ?_, ?_⟩ <;> decide

/-! ## C4 -/

/-- C4 (amended): each frame the obstacle loop moves obstacles in order;
    an obstacle whose moved centre has passed the bottom is marked for
    removal and is NOT collision-tested (`continue`); every other obstacle
    is tested, the loop stops at the first tested overlap (the obstacles
    after it are neither moved nor tested), and that frame's
    `_update_obstacles` sets `game_over` (exactly one transition); with no
    overlap among tested obstacles `game_over` keeps its previous value. -/
theorem C4_collision_order (g : RacingGame) :
    (∀ e ∈ (updateObstaclesLoop g.player_car g.obstacle_speed g.config.height
        g.obstacles).1,
      (e.marked = true → e.tested = false) ∧ (e.tested = true → e.marked = false)) ∧
    ((updateObstaclesLoop g.player_car g.obstacle_speed g.config.height
        g.obstacles).2 = true →
      (g.updateObstacles).game_over = true ∧
      ∃ pre e post,
        (updateObstaclesLoop g.player_car g.obstacle_speed g.config.height
          g.obstacles).1 = pre ++ e :: post ∧
        e.tested = true ∧ checkCollision g.player_car e.car = true ∧
        (∀ e' ∈ pre, e'.tested = true → checkCollision g.player_car e'.car = false) ∧
        (∀ e' ∈ post, e'.tested = false)) ∧
    ((updateObstaclesLoop g.player_car g.obstacle_speed g.config.height
        g.obstacles).2 = false →
      (g.updateObstacles).game_over = g.game_over ∧
      ∀ e ∈ (updateObstaclesLoop g.player_car g.obstacle_speed g.config.height
        g.obstacles).1,
        e.tested = true → checkCollision g.player_car e.car = false) := by
  refine ⟨loop_marked_tested _ _ _ _,
    fun hc => ⟨?_, loop_collision_split _ _ _ _ hc⟩,
    fun hc => ⟨?_, loop_no_collision_all _ _ _ _ hc⟩⟩
  · rw [updateObstacles_of_collision g hc]
  · rw [updateObstacles_of_no_collision g hc]

/-- A running state with a single colliding obstacle (moved box `[458,508]`
    overlaps the player's `[500, 540]`). -/
def gC4w : RacingGame := { RacingGame.init defaultConfig 90 with
  obstacles := [mkCar 200 480 56 50] }

/-- C4 witness: the collision branch of the amended theorem at `gC4w`. -/
theorem C4_witness :
    (gC4w.updateObstacles).game_over = true ∧
    ∃ pre e post,
      (updateObstaclesLoop gC4w.player_car gC4w.obstacle_speed gC4w.config.height
        gC4w.obstacles).1 = pre ++ e :: post ∧
      e.tested = true ∧ checkCollision gC4w.player_car e.car = true ∧
      (∀ e' ∈ pre, e'.tested = true → checkCollision gC4w.player_car e'.car = false) ∧
      (∀ e' ∈ post, e'.tested = false) :=
  (C4_collision_order gC4w).2.1 (by decide)

/-- A running state with one obstacle about to pass the bottom
    (`598 + 3 = 601 > 600`), far from the player. -/
def gC4 : RacingGame := { RacingGame.init defaultConfig 90 with
  obstacles := [mkCar 293 598 56 50] }

/-- C4 counterexample: the obstacle moved to `y = 601` is marked for
    removal without `_check_collision` ever being invoked on it (the
    `continue` skips the test), and it is indeed removed — so it is false
    that every obstacle is tested against the player before it can be
    removed. -/
theorem C4_counterexample :
    (updateObstaclesLoop gC4.player_car gC4.obstacle_speed gC4.config.height
        gC4.obstacles).1.map (fun e => (e.marked, e.tested)) = [(true, false)] ∧
    (gC4.updateObstacles).obstacles = [] := by
  refine ⟨?_, ?_⟩ <;> decide

/-! ## C10 -/

/-- C10: when a collision is detected, `_update_obstacles` returns before
    the removal loop: the obstacle list keeps every element (the moved
    prefix and the untouched suffix), its length is unchanged, and in
    particular obstacles already marked as past the bottom of the screen
    are not removed. -/
theorem C10_no_removal (g : RacingGame)
    (hc : (updateObstaclesLoop g.player_car g.obstacle_speed g.config.height
      g.obstacles).2 = true) :
    (g.updateObstacles).obstacles
      = (updateObstaclesLoop g.player_car g.obstacle_speed g.config.height
          g.obstacles).1.map (fun e => e.car) ∧
    (g.updateObstacles).obstacles.length = g.obstacles.length ∧
    ∀ e ∈ (updateObstaclesLoop g.player_car g.obstacle_speed g.config.height
      g.obstacles).1, e.car ∈ (g.updateObstacles).obstacles := by
  have h1 : (g.updateObstacles).obstacles
      = (updateObstaclesLoop g.player_car g.obstacle_speed g.config.height
          g.obstacles).1.map (fun e => e.car) := by
    rw [updateObstacles_of_collision g hc]
  refine ⟨h1, ?_, ?_⟩
  · rw [h1, List.length_map, loop_length]
  · intro e he
    rw [h1]
    exact List.mem_map_of_mem _ he

/-- A running state with an obstacle past the bottom (`598 → 601`, marked
    for removal) followed by a colliding obstacle (`480 → 483`). -/
def gC10 : RacingGame := { RacingGame.init defaultConfig 90 with
  obstacles := [mkCar 106 598 56 50, mkCar 200 480 56 50] }

/-- C10 witness: at `gC10` the collision is found after an obstacle was
    already marked past-bottom, and still nothing is removed. -/
theorem C10_witness :
    (gC10.updateObstacles).obstacles
      = (updateObstaclesLoop gC10.player_car gC10.obstacle_speed gC10.config.height
          gC10.obstacles).1.map (fun e => e.car) ∧
    (gC10.updateObstacles).obstacles.length = gC10.obstacles.length ∧
    ∀ e ∈ (updateObstaclesLoop gC10.player_car gC10.obstacle_speed gC10.config.height
      gC10.obstacles).1, e.car ∈ (gC10.updateObstacles).obstacles :=
  C10_no_removal gC10 (by decide)

/-! ## C6 -/

/-- C6: every frame that starts in the running state decrements the spawn
    countdown by one; the frame in which it reaches zero appends exactly
    one obstacle — height 50, `int(lane_width * 0.6)` wide, centred in the
    oracle-drawn lane index of `[0, lane_count)`, with its whole box above
    the visible area — and redraws the countdown as the oracle draw of
    `random.randint(60, 120)`. -/
theorem C6_spawner (g : RacingGame) (keys : Keys) (rng : Rng)
    (hg : g.game_over = false)
    (hlane : 0 ≤ rng.lane ∧ rng.lane < g.config.lane_count)
    (hdelay : 60 ≤ rng.delay ∧ rng.delay ≤ 120) :
    (2 ≤ g.spawn_timer →
      (g.update keys rng).spawn_timer = g.spawn_timer - 1 ∧
      (g.update keys rng).obstacles
        = (((g.updateCar keys).updateLaneMarkers).updateObstacles).obstacles) ∧
    (g.spawn_timer = 1 →
      (g.update keys rng).obstacles
        = (((g.updateCar keys).updateLaneMarkers).updateObstacles).obstacles
          ++ [mkCar (g.laneCenter rng.lane) ((-50 : Int) : ℚ)
                (pyTrunc (g.lane_width * (3/5))) 50] ∧
      (g.update keys rng).spawn_timer = rng.delay ∧
      60 ≤ (g.update keys rng).spawn_timer ∧ (g.update keys rng).spawn_timer ≤ 120 ∧
      0 ≤ rng.lane ∧ rng.lane < g.config.lane_count ∧
      (mkCar (g.laneCenter rng.lane) ((-50 : Int) : ℚ)
          (pyTrunc (g.lane_width * (3/5))) 50).rect.y
        + ((mkCar (g.laneCenter rng.lane) ((-50 : Int) : ℚ)
            (pyTrunc (g.lane_width * (3/5))) 50).rect.h : ℚ) ≤ 0) := by
  have hpipe := update_of_not_game_over g keys rng hg
  have hXt : (((g.updateCar keys).updateLaneMarkers).updateObstacles).spawn_timer
      = g.spawn_timer := by
    rw [updateObstacles_spawn_timer, updateLaneMarkers_spawn_timer, updateCar_spawn_timer]
  have hXl : (((g.updateCar keys).updateLaneMarkers).updateObstacles).lane_width
      = g.lane_width := by
    rw [updateObstacles_lane_width, updateLaneMarkers_lane_width, updateCar_lane_width]
  have hXc : (((g.updateCar keys).updateLaneMarkers).updateObstacles).laneCenter rng.lane
      = g.laneCenter rng.lane := by
    unfold RacingGame.laneCenter
    rw [updateObstacles_track_left, updateLaneMarkers_track_left, updateCar_track_left, hXl]
  constructor
  · intro h2
    have hpos :
        0 < (((g.updateCar keys).updateLaneMarkers).updateObstacles).spawn_timer - 1 := by
      rw [hXt]
      omega
    constructor
    · rw [hpipe, updateScore_spawn_timer, maybeSpawn_of_counting _ _ hpos, hXt]
    · rw [hpipe, updateScore_obstacles, maybeSpawn_of_counting _ _ hpos]
  · intro h1
    have hexp :
        (((g.updateCar keys).updateLaneMarkers).updateObstacles).spawn_timer - 1 ≤ 0 := by
      rw [hXt]
      omega
    have hy : ((50 : Int).fdiv 2) = 25 := by decide
    refine ⟨?_, ?_, ?_, ?_, hlane.1, hlane.2, ?_⟩
    · rw [hpipe, updateScore_obstacles, maybeSpawn_of_expired _ _ hexp, hXc, hXl]
    · rw [hpipe, updateScore_spawn_timer, maybeSpawn_of_expired _ _ hexp]
    · rw [hpipe, updateScore_spawn_timer, maybeSpawn_of_expired _ _ hexp]
      exact hdelay.1
    · rw [hpipe, updateScore_spawn_timer, maybeSpawn_of_expired _ _ hexp]
      exact hdelay.2
    · show ((-50 : Int) : ℚ) - (((50 : Int).fdiv 2 : Int) : ℚ) + ((50 : Int) : ℚ) ≤ 0
      rw [hy]
      norm_num

/-- A running state whose spawn countdown expires this frame. -/
def gTimer1 : RacingGame := { RacingGame.init defaultConfig 70 with spawn_timer := 1 }

/-- A fixed random oracle: next lane draw 2, next delay draw 77. -/
def rngB : Rng := { lane := 2, delay := 77 }

/-- C6 witness: the spawning frame at `gTimer1` with oracle draws lane 2
    and delay 77. -/
theorem C6_witness :
    (gTimer1.update keysNone rngB).obstacles
      = (((gTimer1.updateCar keysNone).updateLaneMarkers).updateObstacles).obstacles
        ++ [mkCar (gTimer1.laneCenter rngB.lane) ((-50 : Int) : ℚ)
              (pyTrunc (gTimer1.lane_width * (3/5))) 50] ∧
    (gTimer1.update keysNone rngB).spawn_timer = rngB.delay ∧
    60 ≤ (gTimer1.update keysNone rngB).spawn_timer ∧
    (gTimer1.update keysNone rngB).spawn_timer ≤ 120 ∧
    0 ≤ rngB.lane ∧ rngB.lane < gTimer1.config.lane_count ∧
    (mkCar (gTimer1.laneCenter rngB.lane) ((-50 : Int) : ℚ)
        (pyTrunc (gTimer1.lane_width * (3/5))) 50).rect.y
      + ((mkCar (gTimer1.laneCenter rngB.lane) ((-50 : Int) : ℚ)
          (pyTrunc (gTimer1.lane_width * (3/5))) 50).rect.h : ℚ) ≤ 0 :=
  (C6_spawner gTimer1 keysNone rngB rfl (by decide) (by decide)).2 rfl

/-! ## C7 -/

/-- C7 (amended): after every per-frame marker update each marker's `y`
    lies in `[-marker_length, screen_height]` (given non-negative scroll
    speed and marker length, `-marker_length ≤ height`, and markers
    starting at or below `-marker_length`, all established at startup);
    after initialisation the markers of the default configuration also lie
    in that range, but initialisation only guarantees
    `y < height + marker_length`, and for some configurations an initial
    marker exceeds the screen height (see the counterexample). -/
theorem C7_markers :
    (∀ g : RacingGame, 0 ≤ g.road_scroll_speed → 0 ≤ g.config.lane_marker_length →
      -g.config.lane_marker_length ≤ g.config.height →
      (∀ m ∈ g.lane_markers, -g.config.lane_marker_length ≤ m.2) →
      ∀ m ∈ (g.updateLaneMarkers).lane_markers,
        -g.config.lane_marker_length ≤ m.2 ∧ m.2 ≤ g.config.height) ∧
    (∀ d : Int, ∀ m ∈ (RacingGame.init defaultConfig d).lane_markers,
      -(RacingGame.init defaultConfig d).config.lane_marker_length ≤ m.2 ∧
        m.2 ≤ (RacingGame.init defaultConfig d).config.height) := by
  constructor
  · intro g hs hL hLH hpre m hm
    obtain ⟨m0, hm0, rfl⟩ := List.mem_map.mp hm
    have h0 := hpre m0 hm0
    dsimp only
    by_cases hgt : m0.2 + g.road_scroll_speed > g.config.height
    · rw [if_pos hgt]
      omega
    · rw [if_neg hgt]
      omega
  · intro d
    show ∀ m ∈ (RacingGame.init defaultConfig 0).lane_markers,
      -(RacingGame.init defaultConfig 0).config.lane_marker_length ≤ m.2 ∧
        m.2 ≤ (RacingGame.init defaultConfig 0).config.height
    decide

/-- C7 witness: one marker update from the default startup state. -/
theorem C7_witness :
    ∀ m ∈ ((RacingGame.init defaultConfig 60).updateLaneMarkers).lane_markers,
      -(RacingGame.init defaultConfig 60).config.lane_marker_length ≤ m.2 ∧
        m.2 ≤ (RacingGame.init defaultConfig 60).config.height :=
  C7_markers.1 (RacingGame.init defaultConfig 60) (by decide) (by decide) (by decide)
    (by decide)

/-- `GameConfig(height=460)` with the default marker geometry. -/
def cfg460 : GameConfig := { defaultConfig with height := 460 }

/-- C7 counterexample: with `GameConfig(height=460)` initialisation places
    a marker at `y = 464 > 460 = screen_height` (the init range runs up to
    `height + marker_length`), so the claimed range does not hold after
    initialisation. -/
theorem C7_counterexample :
    (153, 464) ∈ (RacingGame.init cfg460 60).lane_markers ∧
    ¬ ((464 : Int) ≤ (RacingGame.init cfg460 60).config.height) := by
  refine ⟨?_, ?_⟩ <;> decide
